import Mathlib

/-
Verification of the Meross-js command/notification correlation engine and
device model against its natural-language specification.

The definitions below are shallow embeddings of the JavaScript/TypeScript
sources:
  - model.js            (OnlineStatus and Namespace constants)
  - src/mqtt.js         (topic builders, signature verification); the later
                        TypeScript revision of the same module is embedded
                        under a TS suffix where the two revisions differ
  - devices.js / src/devices.ts (BaseDevice, HubDevice, GenericSubDevice)
  - device-registry.ts  (DeviceRegistry)
  - manager.js          (MerossManager: pending-request table, dispatch)
  - device-factory      (buildMerossDevice / buildCachedType)
JavaScript objects keyed by strings are modelled as lists (preserving
insertion order, with key uniqueness maintained by the operations);
exceptions are modelled with Except; md5 is an external library and is
modelled as an abstract digest function parameter.
-/

/-- OnlineStatus enumeration from model.js: ONLINE: 1, OFFLINE: 2, UNKNOWN: -1. -/
inductive OnlineStatus
  | ONLINE
  | OFFLINE
  | UNKNOWN
deriving DecidableEq, Repr

/-- Numeric codes of the OnlineStatus enumeration in model.js. -/
def OnlineStatus.code : OnlineStatus → Int
  | .ONLINE => 1
  | .OFFLINE => 2
  | .UNKNOWN => -1

/-- Namespace constant from model.js: CONTROL_UNBIND. -/
def NamespaceCONTROL_UNBIND : String := "Appliance.Control.Unbind"

/-- Namespace constant from model.js: CONTROL_TOGGLE. -/
def NamespaceCONTROL_TOGGLE : String := "Appliance.Control.Toggle"

/-- Namespace constant from model.js: CONTROL_TOGGLEX. -/
def NamespaceCONTROL_TOGGLEX : String := "Appliance.Control.ToggleX"

/-- Namespace constant from model.js: SYSTEM_DIGEST_HUB. -/
def NamespaceSYSTEM_DIGEST_HUB : String := "Appliance.Digest.Hub"

/-
Topic and message codec (src/mqtt.js, with the TypeScript revision of the
user-topic builder embedded separately because the two revisions differ).
-/

/-- Builds the topic where the client receives command acknowledgements, from
src/mqtt.js buildClientResponseTopic: a backtick template literal
interpolating both arguments. -/
def buildClientResponseTopic (userID appID : String) : String :=
  "/app/" ++ userID ++ "-" ++ appID ++ "/subscribe"

/-- Builds the account notification topic, from src/mqtt.js
buildClientUserTopic. The source returns a SINGLE-QUOTED string literal, so
no interpolation happens: the function returns the eleven-plus-character
literal text, dollar sign and braces included, regardless of its argument. -/
def buildClientUserTopic (_userID : String) : String :=
  "/app/$\x7buser_id\x7d/subscribe"

/-- Builds the account notification topic as written in the TypeScript
revision of the same module (src/unnamed/part_002 buildClientUserTopic),
which uses a backtick template literal interpolating userID. -/
def buildClientUserTopicTS (userID : String) : String :=
  "/app/" ++ userID ++ "/subscribe"

/-- Builds the device command topic, from src/mqtt.js
buildDeviceRequestTopic: a backtick template literal interpolating the
device uuid. -/
def buildDeviceRequestTopic (clientUUID : String) : String :=
  "/appliance/" ++ clientUUID ++ "/subscribe"

/-- Wire message header, from the envelope built in manager.js
buildMQTTMessage and consumed by mqtt.js verifyMessageSignature. -/
structure MQTTHeader where
  fromTopic : String
  messageId : String
  method : String
  nsp : String
  payloadVersion : Nat
  sign : String
  timestamp : Nat
deriving DecidableEq, Repr

/-- Signature check from src/mqtt.js verifyMessageSignature: recompute
md5 of messageId, key and timestamp joined as strings and compare with the
sign field. The md5 library is modelled by the abstract digest argument. -/
def verifyMessageSignature (digest : String → String)
    (header : MQTTHeader) (key : String) : Bool :=
  digest (header.messageId ++ key ++ toString header.timestamp) == header.sign

/-- Outbound envelope header construction from manager.js buildMQTTMessage:
messageId is the digest of a random nonce, the timestamp is
Math.floor(Date.now() / 100), and sign is the digest of messageId, key and
timestamp joined. nowMs is the value of Date.now() in milliseconds. -/
def buildMQTTMessageHeader (digest : String → String)
    (key respTopic method nsp nonce : String) (nowMs : Nat) : MQTTHeader :=
  let messageId := digest nonce
  let timestamp := nowMs / 100
  let signature := digest (messageId ++ key ++ toString timestamp)
  { fromTopic := respTopic
    messageId := messageId
    method := method
    nsp := nsp
    payloadVersion := 1
    sign := signature
    timestamp := timestamp }

/-- Seconds-resolution epoch timestamp as the specification words it:
the floor of Date.now() milliseconds divided by 1000. -/
def specSecondsTimestamp (nowMs : Nat) : Nat := nowMs / 1000

/-
Device model (devices.js and src/devices.ts).
-/

/-- Channel entry produced by BaseDevice.parseChannels. -/
structure ChannelInfo where
  index : Nat
  name : String
  type : String
  master : Bool
deriving DecidableEq, Repr

/-- Channel parsing from BaseDevice.parseChannels: maps each raw
(name, type) pair to a ChannelInfo carrying its position, with
master set exactly on index 0. -/
def parseChannels (channelData : List (String × String)) : List ChannelInfo :=
  channelData.enum.map fun p =>
    { index := p.1, name := p.2.1, type := p.2.2, master := p.1 == 0 }

/-- Inventory record consumed by the device model, from the HTTPDeviceInfo
shape used by devices.js and src/devices.ts. -/
structure HTTPDeviceInfo where
  uuid : String
  dev_name : String
  device_type : String
  fmware_version : String
  hdware_version : String
  online_status : OnlineStatus
  channels : List (String × String)
deriving DecidableEq, Repr

/-- Mutable state of a BaseDevice from src/devices.ts: the fields assigned
in the constructor and overwritten by updateFromHTTPState. The manager
handle and the abilities object are not part of the state the claims are
about. -/
structure BaseDevice where
  uuid : String
  name : String
  type : String
  firmwareVersion : String
  hardwareVersion : String
  online : OnlineStatus
  channels : List ChannelInfo
deriving DecidableEq, Repr

/-- Library-assigned identifier from the BaseDevice internalID getter:
the string //BASE: followed by the Meross native uuid. -/
def BaseDevice.internalID (d : BaseDevice) : String := "//BASE:" ++ d.uuid

/-- Connectivity getter of BaseDevice: returns the stored online field. -/
def BaseDevice.onlineStatus (d : BaseDevice) : OnlineStatus := d.online

/-- Errors surfaced by the embedded device-model operations. -/
inductive DeviceError
  | identityMismatch
deriving DecidableEq, Repr

/-- Update from inventory, from src/devices.ts updateFromHTTPState: throws
when the record's uuid differs from the device's own uuid, otherwise
overwrites name, channels, type, firmwareVersion, hardwareVersion and
online with the record's values. -/
def BaseDevice.updateFromHTTPState (d : BaseDevice) (deviceInfo : HTTPDeviceInfo) :
    Except DeviceError BaseDevice :=
  if deviceInfo.uuid != d.uuid then
    .error .identityMismatch
  else
    .ok { d with
      name := deviceInfo.dev_name
      channels := parseChannels deviceInfo.channels
      type := deviceInfo.device_type
      firmwareVersion := deviceInfo.fmware_version
      hardwareVersion := deviceInfo.hdware_version
      online := deviceInfo.online_status }

/-- State of a GenericSubDevice relevant to the claims: the hub
back-reference stored at construction, the sub-device identifier, and the
sub-device's own reported online status (inherited BaseDevice state). -/
structure GenericSubDevice where
  hub : BaseDevice
  subDeviceID : String
  online : OnlineStatus
deriving DecidableEq, Repr

/-- Derived connectivity status from the GenericSubDevice onlineStatus
getter (devices.js and src/devices.ts agree): when the hub's status is not
ONLINE the getter returns the hub's status, otherwise the sub-device's own
reported status. -/
def GenericSubDevice.onlineStatus (s : GenericSubDevice) : OnlineStatus :=
  if s.hub.onlineStatus != .ONLINE then s.hub.onlineStatus
  else s.online

/-
Device registry (device-registry.ts; the JavaScript revision in
src/unnamed/part_001 is identical for the operations embedded here).
The devicesByInternalID object is modelled as a list of devices in
insertion order; the key of each entry is the device's internalID getter,
and enrollDevice keeps keys unique exactly as a JavaScript object does.
-/

/-- Registry state: Object.values of devicesByInternalID in insertion
order. -/
abbrev DeviceRegistry := List BaseDevice

/-- Errors surfaced by the embedded registry operations. -/
inductive RegistryError
  | notFound
  | ambiguousDevice
deriving DecidableEq, Repr

/-- Primary-key lookup from DeviceRegistry.lookupByID: the object access
devicesByInternalID of deviceID, returning the device or the absent
marker. -/
def lookupByID (reg : DeviceRegistry) (deviceID : String) : Option BaseDevice :=
  reg.find? fun d => d.internalID == deviceID

/-- Insertion from DeviceRegistry.enrollDevice: when the device's
internalID is already a key of the registry, log and do nothing; otherwise
add the device under its internalID. -/
def enrollDevice (reg : DeviceRegistry) (device : BaseDevice) : DeviceRegistry :=
  if (lookupByID reg device.internalID).isSome then reg
  else reg ++ [device]

/-- Removal from DeviceRegistry.relinquishDevice: throws when the
identifier is absent, otherwise deletes the entry under that key. -/
def relinquishDevice (reg : DeviceRegistry) (deviceID : String) :
    Except RegistryError DeviceRegistry :=
  match reg.find? (fun d => d.internalID == deviceID) with
  | none => .error .notFound
  | some _ => .ok (reg.filter fun d => d.internalID != deviceID)

/-- Secondary lookup from DeviceRegistry.lookupByUUID: filter the
registered devices by native uuid; throw when more than one matches,
return the unique match when exactly one does, and the absent marker (null)
when none does. -/
def lookupByUUID (reg : DeviceRegistry) (deviceUUID : String) :
    Except RegistryError (Option BaseDevice) :=
  match reg.filter (fun d => d.uuid == deviceUUID) with
  | [] => .ok none
  | [d] => .ok (some d)
  | _ => .error .ambiguousDevice

/-- JavaScript truthiness of a string filter value: the empty string is
falsy, every other string is truthy. -/
def jsTruthy (s : String) : Bool := s != ""

/-- Multi-filter query from DeviceRegistry.findAllBy restricted to the
deviceUUIDs predicate, the only filter the embedded claims use (manager.js
findDevices with a deviceUUIDs argument). The source predicate is the
ternary deviceUUIDs ? [deviceUUIDs].flat().includes(d.uuid) : true, so a
falsy (empty-string) filter value short-circuits to true and matches every
registered device. -/
def findAllByUUID (reg : DeviceRegistry) (deviceUUID : String) : List BaseDevice :=
  reg.filter fun d => if jsTruthy deviceUUID then d.uuid == deviceUUID else true

/-
Connection and dispatch engine (manager.js).
-/

/-- Resolution state of a pending-request entry in the
MerossManager.pendingMessages table. -/
inductive PendingOutcome
  | waiting
deriving DecidableEq, Repr

/-- Pending-request table of manager.js: maps message identifiers to their
completion callbacks. Only key presence matters to the claims. -/
abbrev PendingTable := List (String × PendingOutcome)

/-- Entry creation from asyncSendAndWaitAck: the promise executor stores
the resolve/reject pair under the fresh message identifier before the
publish call. -/
def registerPending (pending : PendingTable) (messageID : String) : PendingTable :=
  (messageID, .waiting) :: pending

/-- Key-presence test on the pending table. -/
def pendingContains (pending : PendingTable) (messageID : String) : Bool :=
  (pending.find? fun e => e.1 == messageID).isSome

/-- Acknowledgement path of manager.js onMessage: when an ack or error
arrives on the response topic and its messageId keys a pending entry, the
entry is deleted and its future resolved or rejected; otherwise the table
is untouched. -/
def onMessageAck (pending : PendingTable) (messageID : String) : PendingTable :=
  if pendingContains pending messageID then
    pending.filter fun e => e.1 != messageID
  else pending

/-- Timeout branch of the Promise.race in asyncSendAndWaitAck: the timer
callback rejects the race with CommandTimeout but performs no delete on
pendingMessages, so the table is returned unchanged. -/
def timeoutFire (pending : PendingTable) (_messageID : String) : PendingTable :=
  pending

/-- Timeout argument that executeCommand actually hands to
asyncSendAndWaitAck: the call site in manager.js passes only messageID,
message and destinationDeviceUUID, so the fourth parameter is undefined
(modelled as none) whatever timeoutSeconds the caller supplied. -/
def executeCommandTimeoutArg (_timeoutSeconds : Nat) : Option Nat := none

/-- Millisecond delay computed inside asyncSendAndWaitAck: timeout * 1000,
which is NaN (none) when timeout is undefined. -/
def timerDelayMs : Option Nat → Option Nat
  | some t => some (t * 1000)
  | none => none

/-- Effective delay with which the JavaScript runtime arms setTimeout: a
NaN delay is coerced to zero (Node.js substitutes 1 ms; either way the
timer fires immediately rather than after the requested delay). -/
def jsSetTimeoutEffectiveDelayMs : Option Nat → Nat
  | some d => d
  | none => 0

/-- Post-dispatch housekeeping from
MerossManager.handlePushNotificationPostDispatching: when the
notification's namespace is the unbind namespace, every registered device
whose uuid matches the originating uuid is relinquished from the registry
and the notification is reported handled; otherwise nothing happens and it
is reported unhandled. -/
def handlePushNotificationPostDispatching (reg : DeviceRegistry)
    (nsp originatingDeviceUUID : String) :
    Except RegistryError (DeviceRegistry × Bool) :=
  if nsp == NamespaceCONTROL_UNBIND then do
    let devs := findAllByUUID reg originatingDeviceUUID
    let regFinal ← devs.foldlM (fun r d => relinquishDevice r d.internalID) reg
    pure (regFinal, true)
  else
    pure (reg, false)

/-- Errors surfaced by the embedded GenericSubDevice constructor. -/
inductive SubDeviceError
  | hubNotPresent
deriving DecidableEq, Repr

/-- Hub resolution in the GenericSubDevice constructor: the manager's
registry is queried with findDevices restricted to the owning hub uuid; an
empty result throws, otherwise the first match is stored as the hub
back-reference of the constructed sub-device. The stored reference is a
field of the result and no later operation consults the registry again. -/
def mkGenericSubDevice (reg : DeviceRegistry) (hubDeviceUUID subDeviceID : String)
    (configOnline : OnlineStatus) : Except SubDeviceError GenericSubDevice :=
  match findAllByUUID reg hubDeviceUUID with
  | [] => .error .hubNotPresent
  | h :: _ =>
    .ok { hub := h, subDeviceID := subDeviceID, online := configOnline }

/-
Capability composition factory (the TypeScript revision of device-factory;
the JavaScript revision in src/unnamed/part_003 differs only in reading the
ability matrix with a Map-style get call, which a plain object does not
support).
-/

/-- Ability-to-mixin matrix from device-factory: every entry of the source
object literal is commented out, so the matrix is empty. -/
def ABILITY_MATRIX : List (String × String) := []

/-- Property read on the ability matrix object: the mixin registered under
the given key, or undefined. -/
def abilityMatrixLookup (key : String) : Option String :=
  (ABILITY_MATRIX.find? fun e => e.1 == key).map fun e => e.2

/-- Property read on the deviceAbilities object, modelled as an association
list of its Object.entries. -/
def abilitiesLookup (deviceAbilities : List (String × String)) (key : String) :
    Option String :=
  (deviceAbilities.find? fun e => e.1 == key).map fun e => e.2

/-- Mixin-selection step of buildCachedType for a single entry of
Object.entries(deviceAbilities): cls is the matrix entry under the entry
key; the X-version check reads deviceAbilities at the key with an X
appended and, when that value is truthy, looks the VALUE up in the matrix;
clsx wins over cls and a defined winner is added to the set. -/
def buildCachedTypeStep (deviceAbilities : List (String × String))
    (acc : List String) (key : String) : List String :=
  let cls := abilityMatrixLookup key
  let xVersionAbilityKey := abilitiesLookup deviceAbilities (key ++ "X")
  let clsx := match xVersionAbilityKey with
    | some v => abilityMatrixLookup v
    | none => none
  match clsx, cls with
  | some c, _ => if c ∈ acc then acc else acc ++ [c]
  | none, some c => if c ∈ acc then acc else acc ++ [c]
  | none, none => acc

/-- Mixin selection of buildCachedType: fold the selection step over
Object.entries(deviceAbilities), accumulating the ordered duplicate-free
mixin set. -/
def buildCachedTypeMixins (deviceAbilities : List (String × String)) : List String :=
  (deviceAbilities.map fun e => e.1).foldl (buildCachedTypeStep deviceAbilities) []

/-- Object.entries of the ability list of the specification scenario: the
array of two ability names, whose entries are the stringified indices
paired with the names. -/
def scenarioAbilityEntries : List (String × String) :=
  [("0", NamespaceCONTROL_TOGGLE), ("1", NamespaceCONTROL_TOGGLEX)]

/-- Object.entries of the same abilities reported as a name-keyed object
(the shape Appliance.System.Ability responses use), each name mapped to a
truthy metadata value. -/
def scenarioAbilityEntriesObjectForm : List (String × String) :=
  [(NamespaceCONTROL_TOGGLE, "meta"), (NamespaceCONTROL_TOGGLEX, "meta")]

/-- Inventory record of the specification scenario for the factory claim. -/
def scenarioDeviceInfo : HTTPDeviceInfo :=
  { uuid := "X1"
    dev_name := "unknown"
    device_type := "mss310"
    fmware_version := "1.0"
    hdware_version := "2.0"
    online_status := .ONLINE
    channels := [] }

/-- Device constructed by the factory for the scenario record: the cached
factory applies the base-class constructor to the uuid, manager and record
(src/devices.ts BaseDevice constructor, with the unknown fallbacks). -/
def scenarioConstructedDevice : BaseDevice :=
  { uuid := scenarioDeviceInfo.uuid
    name := scenarioDeviceInfo.dev_name
    type := scenarioDeviceInfo.device_type
    firmwareVersion := scenarioDeviceInfo.fmware_version
    hardwareVersion := scenarioDeviceInfo.hdware_version
    online := scenarioDeviceInfo.online_status
    channels := parseChannels scenarioDeviceInfo.channels }

/-
Concrete devices used in counterexamples and witnesses.
-/

/-- Hub device whose connectivity status is UNKNOWN. -/
def hubUnknown : BaseDevice :=
  { uuid := "h1", name := "hub", type := "msh300", firmwareVersion := "1.0"
    hardwareVersion := "1.0", online := .UNKNOWN, channels := [] }

/-- Sub-device owned by hubUnknown whose own reported status is ONLINE. -/
def subOfUnknownHub : GenericSubDevice :=
  { hub := hubUnknown, subDeviceID := "s1", online := .ONLINE }

/-- Device with native uuid u1 and display name a. -/
def devA : BaseDevice :=
  { uuid := "u1", name := "a", type := "mss310", firmwareVersion := "1.0"
    hardwareVersion := "1.0", online := .ONLINE, channels := [] }

/-- A different device record sharing devA's native uuid u1. -/
def devB : BaseDevice :=
  { uuid := "u1", name := "b", type := "mss310", firmwareVersion := "1.0"
    hardwareVersion := "1.0", online := .OFFLINE, channels := [] }

/-- Device with native uuid u2. -/
def devC : BaseDevice :=
  { uuid := "u2", name := "c", type := "msl120", firmwareVersion := "2.0"
    hardwareVersion := "3.0", online := .UNKNOWN, channels := [] }

/-
Claim theorems.
-/

/-- C1: the claim says a command sent with timeout T whose ack never
arrives rejects with CommandTimeoutError no earlier than T seconds, with
the pending entry removed when the timeout fires. The code instead calls
asyncSendAndWaitAck without forwarding the timeout argument, so the race
timer is armed with an undefined times 1000 = NaN delay, which the runtime
coerces to an immediate (0 ms) timer: for a requested 5-second timeout the
effective delay is 0 ms, strictly below the 5000 ms the claim requires.
Moreover the timeout branch never deletes the pending entry: after the
timer fires for message m1, the table still contains m1, whereas the
acknowledgement path does delete it. -/
theorem executeCommand_timeout_code_bug :
    jsSetTimeoutEffectiveDelayMs (timerDelayMs (executeCommandTimeoutArg 5)) = 0
    ∧ jsSetTimeoutEffectiveDelayMs (timerDelayMs (executeCommandTimeoutArg 5)) < 5 * 1000
    ∧ timeoutFire (registerPending [] "m1") "m1" = [("m1", .waiting)]
    ∧ pendingContains (timeoutFire (registerPending [] "m1") "m1") "m1" = true
    ∧ onMessageAck (registerPending [] "m1") "m1" = [] := by
  decide

/-- C2: the claim says the account-notification topic builder returns
"/app/" followed by the account identifier followed by "/subscribe". The
source of src/mqtt.js buildClientUserTopic uses a single-quoted string, so
for account identifier 46884 it returns the uninterpolated literal rather
than /app/46884/subscribe; the TypeScript revision of the same function
and the sibling response-topic and device-command-topic builders do
interpolate as claimed. -/
theorem buildClientUserTopic_code_bug :
    buildClientUserTopic "46884" = "/app/$\x7buser_id\x7d/subscribe"
    ∧ buildClientUserTopic "46884" ≠ "/app/46884/subscribe"
    ∧ buildClientUserTopicTS "46884" = "/app/46884/subscribe"
    ∧ buildClientResponseTopic "46884" "app1" = "/app/46884-app1/subscribe"
    ∧ buildDeviceRequestTopic "u123" = "/appliance/u123/subscribe" := by
  refine ⟨rfl, ?_, rfl, rfl, rfl⟩
  decide

/-- C3: the claim says the outbound envelope timestamp is seconds-resolution
epoch time, the floor of Date.now() milliseconds divided by 1000, and that
the sign field makes the builder's output pass signature verification. The
second half holds for every digest function, but buildMQTTMessage divides
Date.now() by 100, not 1000: at Date.now() = 1000 ms the produced timestamp
is 10 while the claimed seconds-resolution value is 1. -/
theorem buildMQTTMessage_timestamp_code_bug :
    (∀ (digest : String → String) (key respTopic method nsp nonce : String),
      (buildMQTTMessageHeader digest key respTopic method nsp nonce 1000).timestamp = 10
      ∧ verifyMessageSignature digest
          (buildMQTTMessageHeader digest key respTopic method nsp nonce 1000) key = true)
    ∧ specSecondsTimestamp 1000 = 1
    ∧ (10 : Nat) ≠ 1 := by
  refine ⟨?_, rfl, by decide⟩
  intro digest key respTopic method nsp nonce
  constructor
  · rfl
  · simp [verifyMessageSignature, buildMQTTMessageHeader]

/-- C4: the claim says the factory, given the scenario inventory record
with abilities Appliance.Control.Toggle and Appliance.Control.ToggleX,
selects only the ToggleX category and the constructed device's library
identifier is //BASE:X1. The identifier part holds, but buildCachedType
selects no category at all on this input, in either the array shape of the
scenario or the name-keyed object shape of ability responses: the
ability-to-mixin matrix is entirely commented out, and the X-version
preference looks the matrix up by the ability's value rather than by the
X-suffixed name, so the mixin set comes out empty rather than containing
the ToggleX category. -/
theorem buildCachedType_scenario_code_bug :
    buildCachedTypeMixins scenarioAbilityEntries = []
    ∧ buildCachedTypeMixins scenarioAbilityEntriesObjectForm = []
    ∧ scenarioConstructedDevice.internalID = "//BASE:X1" := by
  refine ⟨rfl, rfl, rfl⟩

/-- C5 counterexample: the claim says a sub-device's derived connectivity
status is OFFLINE whenever the owning hub's status is not ONLINE, in
particular when the hub is UNKNOWN. For a sub-device whose hub is UNKNOWN
and whose own status is ONLINE, the getter returns UNKNOWN, not OFFLINE. -/
theorem subDevice_onlineStatus_counterexample :
    subOfUnknownHub.onlineStatus = OnlineStatus.UNKNOWN
    ∧ subOfUnknownHub.onlineStatus ≠ OnlineStatus.OFFLINE := by
  decide

/-- C5 amended: a sub-device's derived connectivity status equals the
owning hub's status whenever the hub is not ONLINE (hence OFFLINE when the
hub is OFFLINE and UNKNOWN when the hub is UNKNOWN), and equals the
sub-device's own reported status when the hub is ONLINE. -/
theorem subDevice_onlineStatus_amended (s : GenericSubDevice) :
    (s.hub.online = OnlineStatus.OFFLINE → s.onlineStatus = OnlineStatus.OFFLINE)
    ∧ (s.hub.online = OnlineStatus.UNKNOWN → s.onlineStatus = OnlineStatus.UNKNOWN)
    ∧ (s.hub.online = OnlineStatus.ONLINE → s.onlineStatus = s.online) := by
  refine ⟨?_, ?_, ?_⟩ <;> intro h <;>
    simp [GenericSubDevice.onlineStatus, BaseDevice.onlineStatus, h]

/-- C5 amended witness: the amended statement applied to the concrete
sub-device whose hub is UNKNOWN. -/
theorem subDevice_onlineStatus_amended_witness :
    subOfUnknownHub.hub.online = OnlineStatus.UNKNOWN
    ∧ subOfUnknownHub.onlineStatus = OnlineStatus.UNKNOWN :=
  ⟨by decide, (subDevice_onlineStatus_amended subOfUnknownHub).2.1 (by decide)⟩

/-- C6: updateFromHTTPState fails with the identity-mismatch error when
the inventory record's native uuid differs from the device's own uuid,
leaving the device unchanged (the operation returns no updated state); when
the uuids match it returns, in one step, the device with its name,
channels, device-type, firmware-version, hardware-version and connectivity
fields overwritten by the record's values and every other field
unchanged. -/
theorem updateFromHTTPState_correct (d : BaseDevice) (info : HTTPDeviceInfo) :
    (info.uuid ≠ d.uuid →
      d.updateFromHTTPState info = .error .identityMismatch)
    ∧ (info.uuid = d.uuid →
      d.updateFromHTTPState info = .ok
        { uuid := d.uuid
          name := info.dev_name
          type := info.device_type
          firmwareVersion := info.fmware_version
          hardwareVersion := info.hdware_version
          online := info.online_status
          channels := parseChannels info.channels }) := by
  constructor <;> intro h <;> simp [BaseDevice.updateFromHTTPState, h]

/-- C6 witness: the mismatch case at devA against a record for uuid u9 and
the match case at devA against a record for its own uuid u1. -/
theorem updateFromHTTPState_correct_witness :
    devA.updateFromHTTPState
        { uuid := "u9", dev_name := "n", device_type := "t"
          fmware_version := "f", hdware_version := "h"
          online_status := .ONLINE, channels := [] }
      = .error .identityMismatch
    ∧ devA.updateFromHTTPState
        { uuid := "u1", dev_name := "n", device_type := "t"
          fmware_version := "f", hdware_version := "h"
          online_status := .OFFLINE, channels := [("main", "switch")] }
      = .ok
        { uuid := "u1", name := "n", type := "t"
          firmwareVersion := "f", hardwareVersion := "h"
          online := .OFFLINE
          channels := [{ index := 0, name := "main", type := "switch", master := true }] } :=
  ⟨(updateFromHTTPState_correct devA _).1 (by decide),
   (updateFromHTTPState_correct devA _).2 (by decide)⟩

/-- C7: lookupByUUID never raises on a registry holding at most one device
with the queried native uuid — it returns the unique match when there is
one and the absent marker when there is none — and raises the
ambiguous-device error as soon as two or more registered devices share the
queried uuid. -/
theorem lookupByUUID_correct (reg : DeviceRegistry) (U : String) :
    ((reg.filter fun d => d.uuid == U).length ≤ 1 →
      lookupByUUID reg U = .ok (reg.filter fun d => d.uuid == U).head?)
    ∧ (2 ≤ (reg.filter fun d => d.uuid == U).length →
      lookupByUUID reg U = .error .ambiguousDevice) := by
  rcases hf : reg.filter fun d => d.uuid == U with _ | ⟨a, _ | ⟨b, t⟩⟩
  · exact ⟨fun _ => by simp [lookupByUUID, hf], fun h2 => by rw [hf] at h2; simp at h2⟩
  · exact ⟨fun _ => by simp [lookupByUUID, hf], fun h2 => by rw [hf] at h2; simp at h2⟩
  · refine ⟨fun h1 => ?_, fun _ => by simp [lookupByUUID, hf]⟩
    rw [hf] at h1
    simp at h1

/-- C7 witness: the unique-match, no-match and ambiguous cases at concrete
registries. -/
theorem lookupByUUID_correct_witness :
    lookupByUUID [devA, devC] "u1" = .ok (some devA)
    ∧ lookupByUUID [devA, devC] "zz" = .ok none
    ∧ lookupByUUID [devA, devB] "u1" = .error .ambiguousDevice :=
  ⟨(lookupByUUID_correct [devA, devC] "u1").1 (by decide),
   (lookupByUUID_correct [devA, devC] "zz").1 (by decide),
   (lookupByUUID_correct [devA, devB] "u1").2 (by decide)⟩

/-- C8 counterexample: the claim says enrolling any device D and then
looking up D's library identifier returns D. Enrolling devB into a registry
already holding devA — a different record sharing devB's native uuid and
hence its library identifier — is a no-op, and the lookup returns devA,
not devB. -/
theorem enroll_lookup_counterexample :
    enrollDevice [devA] devB = [devA]
    ∧ lookupByID (enrollDevice [devA] devB) devB.internalID = some devA
    ∧ some devA ≠ some devB := by
  decide

/-- C8 amended: enroll never throws (it is total); enrolling a device whose
library identifier is not yet a key and then looking that identifier up
returns the device, while enrolling onto an already-present key is a no-op
that leaves the registry unchanged — so the round trip returns D exactly
when D's key was free (otherwise the previously enrolled record is
returned). -/
theorem enroll_lookup_amended (reg : DeviceRegistry) (d : BaseDevice) :
    (lookupByID reg d.internalID = none →
      lookupByID (enrollDevice reg d) d.internalID = some d)
    ∧ ((lookupByID reg d.internalID).isSome → enrollDevice reg d = reg) := by
  constructor
  · intro h
    unfold enrollDevice
    rw [h]
    simp only [Option.isSome_none, Bool.false_eq_true, if_false]
    unfold lookupByID at h ⊢
    rw [List.find?_append, h]
    simp
  · intro h
    simp [enrollDevice, h]

/-- C8 amended witness: enrolling devC into the singleton registry holding
devA succeeds and the lookup returns devC; re-enrolling a record under
devA's key leaves the registry unchanged. -/
theorem enroll_lookup_amended_witness :
    lookupByID (enrollDevice [devA] devC) devC.internalID = some devC
    ∧ enrollDevice [devA] devB = [devA] :=
  ⟨(enroll_lookup_amended [devA] devC).1 (by decide),
   (enroll_lookup_amended [devA] devB).2 (by decide)⟩

/-- Helper: sequentially relinquishing a list of devices with pairwise
distinct library identifiers, each of which keys an entry of the registry,
succeeds; the final registry is a subset of the initial one and holds no
entry under any of the relinquished identifiers. -/
theorem foldlM_relinquish_spec :
    ∀ (devs : List BaseDevice) (r : DeviceRegistry),
    (devs.map BaseDevice.internalID).Nodup →
    (∀ x ∈ devs, ∃ y ∈ r, y.internalID = x.internalID) →
    ∃ rF, devs.foldlM (fun rr dd => relinquishDevice rr dd.internalID) r = .ok rF
      ∧ (∀ x ∈ rF, x ∈ r)
      ∧ (∀ x ∈ devs, ∀ y ∈ rF, y.internalID ≠ x.internalID)
  | [], r, _, _ => ⟨r, rfl, fun _ hx => hx, by simp⟩
  | a :: rest, r, hnd, hpres => by
    obtain ⟨ya, hyaMem, hyaKey⟩ := hpres a (List.mem_cons_self a rest)
    have hrel : relinquishDevice r a.internalID
        = .ok (r.filter fun x => x.internalID != a.internalID) := by
      unfold relinquishDevice
      rcases hf : r.find? fun x => x.internalID == a.internalID with _ | v
      · exfalso
        rw [List.find?_eq_none] at hf
        exact (by simpa [hyaKey] using hf ya hyaMem)
      · rw [hf]
    have hndRest : (rest.map BaseDevice.internalID).Nodup := (List.nodup_cons.mp hnd).2
    have hkeyA : a.internalID ∉ rest.map BaseDevice.internalID := (List.nodup_cons.mp hnd).1
    have hpresRest : ∀ x ∈ rest,
        ∃ y ∈ (r.filter fun z => z.internalID != a.internalID),
          y.internalID = x.internalID := by
      intro x hx
      obtain ⟨y, hyMem, hyKey⟩ := hpres x (List.mem_cons_of_mem a hx)
      have hxa : x.internalID ≠ a.internalID := fun h =>
        hkeyA (by rw [← h]; exact List.mem_map_of_mem BaseDevice.internalID hx)
      refine ⟨y, List.mem_filter.mpr ⟨hyMem, ?_⟩, hyKey⟩
      simpa [hyKey] using hxa
    obtain ⟨rF, hfold, hsub, hnone⟩ :=
      foldlM_relinquish_spec rest (r.filter fun z => z.internalID != a.internalID)
        hndRest hpresRest
    refine ⟨rF, ?_, ?_, ?_⟩
    · simp only [List.foldlM, hrel]
      exact hfold
    · intro x hx
      exact (List.mem_filter.mp (hsub x hx)).1
    · intro x hx y hy
      rcases List.mem_cons.mp hx with rfl | hxRest
      · have := (List.mem_filter.mp (hsub y hy)).2
        simpa using this
      · exact hnone x hxRest y hy

/-- C9: processing a PUSH notification whose namespace is the unbind
namespace and whose originating uuid is that of an enrolled device removes
the device from the registry and reports the notification handled, so a
subsequent lookupByID of its library identifier returns the absent marker.
This holds for a truthy originating uuid, where the findAllBy query matches
exactly the device, and also for the falsy empty-string uuid, where the
query matches every registered device and the housekeeping relinquishes
them all — the target device included. The registry hypothesis is the
JavaScript-object invariant that library identifiers key at most one
entry. -/
theorem unbind_push_removes_device (reg : DeviceRegistry) (d : BaseDevice)
    (hnd : (reg.map BaseDevice.internalID).Nodup) (hmem : d ∈ reg) :
    ∃ regFinal,
      handlePushNotificationPostDispatching reg NamespaceCONTROL_UNBIND d.uuid
        = .ok (regFinal, true)
      ∧ lookupByID regFinal d.internalID = none := by
  have hdevsSub : ∀ x ∈ findAllByUUID reg d.uuid, x ∈ reg := by
    intro x hx
    exact (List.mem_filter.mp hx).1
  have hdevsNd : ((findAllByUUID reg d.uuid).map BaseDevice.internalID).Nodup := by
    have hsl : List.Sublist (findAllByUUID reg d.uuid) reg := List.filter_sublist reg
    exact List.Nodup.sublist (hsl.map BaseDevice.internalID) hnd
  have hpres : ∀ x ∈ findAllByUUID reg d.uuid, ∃ y ∈ reg, y.internalID = x.internalID :=
    fun x hx => ⟨x, hdevsSub x hx, rfl⟩
  obtain ⟨rF, hfold, _, hnone⟩ :=
    foldlM_relinquish_spec (findAllByUUID reg d.uuid) reg hdevsNd hpres
  have hdIn : d ∈ findAllByUUID reg d.uuid := by
    unfold findAllByUUID
    refine List.mem_filter.mpr ⟨hmem, ?_⟩
    cases h : jsTruthy d.uuid <;> simp [h]
  refine ⟨rF, ?_, ?_⟩
  · unfold handlePushNotificationPostDispatching
    simp [hfold]
  · unfold lookupByID
    rw [List.find?_eq_none]
    intro y hy
    have := hnone d hdIn y hy
    simpa using this

/-- C9 witness: an unbind notification for the enrolled device devA against
the singleton registry holding devA, with the key-uniqueness and membership
hypotheses discharged by evaluation. -/
theorem unbind_push_removes_device_witness :
    (([devA].map BaseDevice.internalID).Nodup ∧ devA ∈ [devA])
    ∧ ∃ regFinal,
      handlePushNotificationPostDispatching [devA] NamespaceCONTROL_UNBIND devA.uuid
        = .ok (regFinal, true)
      ∧ lookupByID regFinal devA.internalID = none :=
  ⟨⟨by decide, by decide⟩,
   unbind_push_removes_device [devA] devA (by decide) (by decide)⟩

/-- C10 counterexample: the claim says the sub-device constructor throws
whenever the manager's registry contains no device whose native uuid equals
the owning-hub uuid H. With H the empty string — a falsy findDevices filter
value that matches every device — and the registry holding only devA, whose
uuid u1 differs from H, the constructor does not throw: it succeeds and
stores devA, a device whose uuid is not H, as the hub back-reference. -/
theorem subDevice_constructor_counterexample :
    devA.uuid ≠ ""
    ∧ mkGenericSubDevice [devA] "" "s1" OnlineStatus.ONLINE
        = .ok { hub := devA, subDeviceID := "s1", online := OnlineStatus.ONLINE } :=
  ⟨by decide, rfl⟩

/-- C10 amended: constructing a sub-device with owning-hub uuid H throws
exactly when the findDevices query with the deviceUUIDs filter H returns no
device: for a truthy (non-empty) H that is when no registered device's
native uuid equals H, whereas a falsy (empty-string) H matches every
registered device, so with a non-empty registry the constructor does not
throw. Whenever the query returns at least one device, the constructed
sub-device stores the first returned device — a registry member, with uuid
H when H is truthy — as its hub back-reference at construction time; the
back-reference is a field of the constructed value and no later operation
of the embedding takes the registry again. -/
theorem subDevice_constructor_hub_amended (reg : DeviceRegistry)
    (hubDeviceUUID subDeviceID : String) (configOnline : OnlineStatus) :
    (jsTruthy hubDeviceUUID = true → (∀ x ∈ reg, x.uuid ≠ hubDeviceUUID) →
      mkGenericSubDevice reg hubDeviceUUID subDeviceID configOnline
        = .error .hubNotPresent)
    ∧ (∀ h t, findAllByUUID reg hubDeviceUUID = h :: t →
      mkGenericSubDevice reg hubDeviceUUID subDeviceID configOnline
        = .ok { hub := h, subDeviceID := subDeviceID, online := configOnline }
      ∧ h ∈ reg ∧ (jsTruthy hubDeviceUUID = true → h.uuid = hubDeviceUUID))
    ∧ (jsTruthy hubDeviceUUID = false → findAllByUUID reg hubDeviceUUID = reg) := by
  refine ⟨?_, ?_, ?_⟩
  · intro htr hall
    have hnil : findAllByUUID reg hubDeviceUUID = [] := by
      unfold findAllByUUID
      rw [List.filter_eq_nil_iff]
      intro a ha
      simpa [htr] using hall a ha
    unfold mkGenericSubDevice
    rw [hnil]
  · intro h t hft
    have hhmem : h ∈ findAllByUUID reg hubDeviceUUID := by
      rw [hft]
      exact List.mem_cons_self h t
    have hhmem2 := List.mem_filter.mp hhmem
    refine ⟨?_, hhmem2.1, fun htr => ?_⟩
    · unfold mkGenericSubDevice
      rw [hft]
    · have := hhmem2.2
      rw [if_pos htr] at this
      simpa using this
  · intro hfls
    unfold findAllByUUID
    rw [hfls]
    simp

/-- C10 amended witness: the error case at the truthy uuid u9 absent from
the singleton registry holding devA, the success case at the truthy uuid u1
storing devA as the hub, and the falsy empty-string query returning the
whole registry. -/
theorem subDevice_constructor_hub_amended_witness :
    mkGenericSubDevice [devA] "u9" "s1" OnlineStatus.ONLINE
      = .error .hubNotPresent
    ∧ mkGenericSubDevice [devA] "u1" "s1" OnlineStatus.ONLINE
      = .ok { hub := devA, subDeviceID := "s1", online := OnlineStatus.ONLINE }
    ∧ findAllByUUID [devA] "" = [devA] :=
  ⟨(subDevice_constructor_hub_amended [devA] "u9" "s1" OnlineStatus.ONLINE).1
      (by decide) (by decide),
   ((subDevice_constructor_hub_amended [devA] "u1" "s1" OnlineStatus.ONLINE).2.1
      devA [] (by decide)).1,
   (subDevice_constructor_hub_amended [devA] "" "s1" OnlineStatus.ONLINE).2.2
      (by decide)⟩

